import Mathlib

/-!
Shallow embedding of `src/core/toga/validators.py` (the toga input-validation
module) and proofs about it.

Python conventions used by the embedding:
* a validator invocation returns `Option String` (`none` = valid, `some msg` =
  the error message); code that can raise a Python exception returns
  `Except PyErr _` instead, with the exception as the `error` case;
* Python `str` is modelled as Lean `String`; `len` is `String.length`
  (both count code points);
* Python `Optional[int]` is `Option Int`.
-/

/-- Python exceptions that the modelled code can raise. -/
inductive PyErr where
  | typeError (msg : String)
  | reError (msg : String)
  | indexError (msg : String)
deriving DecidableEq

/-- A validator as `combine` consumes it: a callable from the input string to
either an error message (`some`), success (`none`), or a raised exception. -/
abbrev PyValidator := String → Except PyErr (Option String)

/-- Embedding of the Python value `Union[str, List[str]]` accepted by
`startswith`, `endswith` and `contains`. -/
inductive PyStrOrList where
  | str (s : String)
  | list (l : List String)

/-- Embedding of class `BooleanValidator`: a predicate (which, being arbitrary
Python code, may raise), a fixed error message, and the empty-input policy. -/
structure BooleanValidator where
  is_valid_method : String → Except PyErr Bool
  error_message : String
  allow_empty : Bool

/-- Embedding of `BooleanValidator.__call__`: empty inputs are exempt when
`allow_empty`; otherwise the predicate decides between `none` and the message
(and a raising predicate propagates its exception). -/
def BooleanValidator.call (v : BooleanValidator) (input_string : String) :
    Except PyErr (Option String) :=
  if v.allow_empty = true ∧ input_string = "" then Except.ok none
  else (v.is_valid_method input_string).map
    (fun b => if b = true then none else some v.error_message)

/-- Embedding of class `CountValidator`. The count methods built by this module
are total Python lambdas, so `count_method` is a pure function. -/
structure CountValidator where
  count_method : String → Int
  count : Option Int
  expected_existence : String
  expected_non_existence : String
  expected_count : String
  allow_empty : Bool

/-- Embedding of `CountValidator.__call__`. Note the Python comparisons on the
`Optional[int]` field: `self.count != 0` is true when `count` is `None`
(hence `v.count ≠ some 0`), `self.count == 0` means `count = some 0`, and the
last rule requires `count is not None` before comparing the values. -/
def CountValidator.call (v : CountValidator) (input_string : String) :
    Option String :=
  if v.allow_empty = true ∧ input_string = "" then none
  else
    let actual_count := v.count_method input_string
    if actual_count = 0 ∧ v.count ≠ some 0 then some v.expected_existence
    else if actual_count ≠ 0 ∧ v.count = some 0 then some v.expected_non_existence
    else if v.count ≠ none ∧ some actual_count ≠ v.count then some v.expected_count
    else none

/-- Embedding of `combine(*validators)`: apply each validator in order to the
same input, return the first result that is not `None` (a raised exception
also stops the loop, by propagating). -/
def combine (validators : List PyValidator) (input_string : String) :
    Except PyErr (Option String) :=
  match validators with
  | [] => Except.ok none
  | v :: rest =>
    match v input_string with
    | Except.ok none => combine rest input_string
    | r => r

/-- Number of validators the loop inside `combine` invokes on the given input:
each iteration invokes one validator, and the loop stops at the first
invocation whose result is not `None` (or which raises). -/
def combineCalls (validators : List PyValidator) (input_string : String) : Nat :=
  match validators with
  | [] => 0
  | v :: rest =>
    match v input_string with
    | Except.ok none => 1 + combineCalls rest input_string
    | _ => 1

/-- Embedding of `min_length`: predicate `len(a) >= length`, with the default
message built by the same string formatting as the source. -/
def min_length (length : Nat) (error_message : Option String)
    (allow_empty : Bool) : BooleanValidator :=
  { is_valid_method := fun a => Except.ok (decide (a.length ≥ length)),
    error_message := error_message.getD
      ("Input is too short (length should be at least " ++ toString length ++ ")"),
    allow_empty := allow_empty }

/-- Embedding of Python `a.startswith(substrings)` where `substrings` has the
annotated type `Union[str, List[str]]`: for a `str` argument it tests the
prefix; for a `list` argument CPython raises
`TypeError: startswith first arg must be str or a tuple of str, not list`. -/
def pyStartswith (a : String) : PyStrOrList → Except PyErr Bool
  | PyStrOrList.str p => Except.ok (p.data.isPrefixOf a.data)
  | PyStrOrList.list _ =>
    Except.error (PyErr.typeError
      "startswith first arg must be str or a tuple of str, not list")

/-- Embedding of Python `a.endswith(substrings)`; like `pyStartswith`, a
`list` argument raises `TypeError` in CPython. -/
def pyEndswith (a : String) : PyStrOrList → Except PyErr Bool
  | PyStrOrList.str p => Except.ok (p.data.isSuffixOf a.data)
  | PyStrOrList.list _ =>
    Except.error (PyErr.typeError
      "endswith first arg must be str or a tuple of str, not list")

/-- Rendering of a `Union[str, List[str]]` value by Python `str.format`: a
string is inserted verbatim, a list is inserted as its `repr`
(single-quoted elements, written here with the escape `\x27`). -/
def pyFormatSubs : PyStrOrList → String
  | PyStrOrList.str s => s
  | PyStrOrList.list l =>
    "[" ++ String.intercalate ", " (l.map (fun s => "\x27" ++ s ++ "\x27")) ++ "]"

/-- Embedding of `startswith(substrings, error_message, allow_empty)`: the
predicate passes `substrings` straight to `a.startswith`. -/
def startswith (substrings : PyStrOrList) (error_message : Option String)
    (allow_empty : Bool) : BooleanValidator :=
  { is_valid_method := fun a => pyStartswith a substrings,
    error_message := error_message.getD
      ("Input should start with \"" ++ pyFormatSubs substrings ++ "\""),
    allow_empty := allow_empty }

/-- Embedding of `endswith(substrings, error_message, allow_empty)`. -/
def endswith (substrings : PyStrOrList) (error_message : Option String)
    (allow_empty : Bool) : BooleanValidator :=
  { is_valid_method := fun a => pyEndswith a substrings,
    error_message := error_message.getD
      ("Input should end with \"" ++ pyFormatSubs substrings ++ "\""),
    allow_empty := allow_empty }

/-- Embedding of `match_regex(regex_string, error_message, allow_empty)`.
The predicate is `lambda a: bool(re.search(regex_string, a))`; CPython
compiles the pattern inside that call, so compilation — modelled by the
`compile` argument, which yields either the pattern matcher or the
`re.error` raised for a malformed pattern — happens at invocation time.
Construction itself performs no compilation and always succeeds. -/
def match_regex (compile : String → Except PyErr (String → Bool))
    (regex_string : String) (error_message : Option String)
    (allow_empty : Bool) : BooleanValidator :=
  { is_valid_method := fun a => (compile regex_string).map (fun f => f a),
    error_message := error_message.getD
      ("Input should match regex: " ++ regex_string),
    allow_empty := allow_empty }

/-- Compilation model of a pattern that is known to be well formed: it always
compiles, to the given matcher. -/
def compiledConst (matcher : String → Bool) :
    String → Except PyErr (String → Bool) := fun _ => Except.ok matcher

/-- The module constant `INTEGER_REGEX`. -/
def INTEGER_REGEX : String := "^[0-9]+$"

/-- The module constant `NUMBER_REGEX`. The third alternative is written in
the source with an unescaped dot, so it matches digit(s), then ANY one
character, then digits. -/
def NUMBER_REGEX : String := "^[-]?(\\d+|\\d*\\.\\d+|\\d+.\\d*)$"

/-- The module constant `EMAIL_REGEX`. -/
def EMAIL_REGEX : String :=
  "^[a-zA-Z][a-zA-Z0-9\\.]*[a-zA-Z0-9]@[a-zA-Z][a-zA-Z0-9]*(\\.[a-zA-Z0-9]+)+$"

/-- Test for the character class `[0-9]` (also the model of `\d`; the
claim-relevant inputs are ASCII). -/
def isAsciiDigit (c : Char) : Bool := decide ('0' ≤ c) && decide (c ≤ '9')

/-- Test for the character class `[a-zA-Z]`. -/
def isAsciiAlpha (c : Char) : Bool :=
  (decide ('a' ≤ c) && decide (c ≤ 'z')) || (decide ('A' ≤ c) && decide (c ≤ 'Z'))

/-- Test for the character class `[a-zA-Z0-9]`. -/
def isAsciiAlnum (c : Char) : Bool := isAsciiAlpha c || isAsciiDigit c

/-- Test for the character class `[a-zA-Z0-9\.]` of the email local part. -/
def isLocalChar (c : Char) : Bool := isAsciiAlnum c || c == '.'

/-- Anchoring model for a Python pattern of the shape `^BODY$` under
`re.search` without flags: `^` matches only at the start, and `$` matches at
the end of the string or just before a trailing newline, so the pattern
matches the input exactly when `BODY` matches the whole input, or the last
character is a newline and `BODY` matches the input without it. -/
def dollarAdjusted (body : List Char → Bool) (l : List Char) : Bool :=
  body l || (l.getLast? == some '\n' && body l.dropLast)

/-- Matcher for `[0-9]+` (also `\d+` of `NUMBER_REGEX`): a non-empty run of
digits. -/
def digitsOnly (l : List Char) : Bool := !l.isEmpty && l.all isAsciiDigit

/-- Matcher for `re.search` of the pattern `^[0-9]+$`: a non-empty run of
digits spanning the input, up to the trailing-newline allowance of `$`. -/
def integerSearch (a : String) : Bool := dollarAdjusted digitsOnly a.data

/-- Matcher for the alternative `\d*\.\d+` of `NUMBER_REGEX`: some digits, a
literal dot, then at least one digit. -/
def dotThenDigits : List Char → Bool
  | [] => false
  | c :: rest =>
    (c == '.' && !rest.isEmpty && rest.all isAsciiDigit)
      || (isAsciiDigit c && dotThenDigits rest)

/-- Matcher for `\d*.\d*` — what remains of the third alternative
`\d+.\d*` of `NUMBER_REGEX` after its first digit. The middle `.` is
unescaped in the source, so it matches ANY single character except a
newline (Python `.` without `DOTALL` excludes `\n`). -/
def digitsAnyDigits : List Char → Bool
  | [] => false
  | c :: rest =>
    (c != '\n' && rest.all isAsciiDigit) || (isAsciiDigit c && digitsAnyDigits rest)

/-- Matcher for the third alternative `\d+.\d*` of `NUMBER_REGEX` (with the
unescaped dot): a digit, then `\d*.\d*`. -/
def numberBranchC : List Char → Bool
  | [] => false
  | c :: rest => isAsciiDigit c && digitsAnyDigits rest

/-- Matcher for the body `[-]?(\d+|\d*\.\d+|\d+.\d*)` of `NUMBER_REGEX`: an
optional leading `-` (which, when the first character is `-`, must be
consumed since no alternative can start with `-`), then one of the three
alternatives over the rest of the input. -/
def numberBody (l : List Char) : Bool :=
  match l with
  | '-' :: rest => digitsOnly rest || dotThenDigits rest || numberBranchC rest
  | l => digitsOnly l || dotThenDigits l || numberBranchC l

/-- Matcher for `re.search` of `NUMBER_REGEX`: its body spanning the input,
up to the trailing-newline allowance of `$`. -/
def numberSearch (a : String) : Bool := dollarAdjusted numberBody a.data

/-- Split of a character list at every occurrence of the separator (the model
of how an anchored regex whose classes all exclude the separator decomposes
the input). -/
def splitOnChar (sep : Char) : List Char → List (List Char)
  | [] => [[]]
  | c :: rest =>
    let r := splitOnChar sep rest
    if c == sep then [] :: r
    else
      match r with
      | [] => [[c]]
      | h :: t => (c :: h) :: t

/-- Matcher for the local part `[a-zA-Z][a-zA-Z0-9\.]*[a-zA-Z0-9]` of
`EMAIL_REGEX`: a letter, then (since the final class is contained in the
middle one) a non-empty tail whose last character is alphanumeric and whose
other characters are letters, digits or dots. -/
def emailLocal : List Char → Bool
  | [] => false
  | c :: mid =>
    isAsciiAlpha c && !mid.isEmpty && mid.dropLast.all isLocalChar
      && (match mid.getLast? with
          | some d => isAsciiAlnum d
          | none => false)

/-- Matcher for one group `\.[a-zA-Z0-9]+` of `EMAIL_REGEX`, with the dot
already split off: a non-empty alphanumeric label. -/
def emailLabel (l : List Char) : Bool := !l.isEmpty && l.all isAsciiAlnum

/-- Matcher for the domain part `[a-zA-Z][a-zA-Z0-9]*(\.[a-zA-Z0-9]+)+` of
`EMAIL_REGEX`: splitting at the dots (which no class of the domain part can
match) must give a first label that is a letter followed by alphanumerics,
and at least one further label, each non-empty and alphanumeric. -/
def emailDomain (l : List Char) : Bool :=
  match splitOnChar '.' l with
  | [] => false
  | first :: rest =>
    (match first with
     | [] => false
     | c :: cs => isAsciiAlpha c && cs.all isAsciiAlnum)
      && !rest.isEmpty && rest.all emailLabel

/-- Matcher for the body of `EMAIL_REGEX`: no character class of the pattern
contains `@`, so a match forces exactly one `@` in the input, with the
local-part pattern to its left and the domain pattern to its right. -/
def emailBody (l : List Char) : Bool :=
  match splitOnChar '@' l with
  | [loc, dom] => emailLocal loc && emailDomain dom
  | _ => false

/-- Matcher for `re.search` of `EMAIL_REGEX`: its body spanning the input,
up to the trailing-newline allowance of `$`. -/
def emailSearch (a : String) : Bool := dollarAdjusted emailBody a.data

/-- Embedding of `integer(error_message, allow_empty)`: fills in the default
message and delegates to `match_regex` with `INTEGER_REGEX`, a constant
pattern that always compiles (to `integerSearch`). -/
def integer (error_message : Option String) (allow_empty : Bool) :
    BooleanValidator :=
  match_regex (compiledConst integerSearch) INTEGER_REGEX
    (some (error_message.getD "Input should be an integer")) allow_empty

/-- Embedding of `number(error_message, allow_empty)`: delegates to
`match_regex` with `NUMBER_REGEX`, a constant pattern that always compiles
(to `numberSearch`). -/
def number (error_message : Option String) (allow_empty : Bool) :
    BooleanValidator :=
  match_regex (compiledConst numberSearch) NUMBER_REGEX
    (some (error_message.getD "Input should be a number")) allow_empty

/-- Embedding of `email(error_message, allow_empty)`: delegates to
`match_regex` with `EMAIL_REGEX`, a constant pattern that always compiles
(to `emailSearch`). -/
def email (error_message : Option String) (allow_empty : Bool) :
    BooleanValidator :=
  match_regex (compiledConst emailSearch) EMAIL_REGEX
    (some (error_message.getD "Input should be a valid email address")) allow_empty

/-- Number of non-overlapping occurrences of `sub` in the tail of the input,
scanning left to right; the `Nat` argument is the number of positions still
covered by the previous match and therefore skipped, mirroring how Python
`str.count` resumes after each match. -/
def countOccSkip (sub : List Char) : List Char → Nat → Nat
  | [], _ => 0
  | _ :: rest, d + 1 => countOccSkip sub rest d
  | c :: rest, 0 =>
    if sub.isPrefixOf (c :: rest) then 1 + countOccSkip sub rest (sub.length - 1)
    else countOccSkip sub rest 0

/-- Embedding of Python `a.count(sub)`: the number of non-overlapping
occurrences of `sub` in `a`, which for the empty substring is `len(a) + 1`. -/
def pyStrCount (a sub : String) : Nat :=
  if sub.data = [] then a.data.length + 1 else countOccSkip sub.data a.data 0

/-- Rendering of the Python format `'"{}"'.format(s)`. -/
def pyQuote (s : String) : String := "\"" ++ s ++ "\""

/-- Rendering of an `Optional[int]` by Python `str.format`: `None` for the
absent value, the decimal representation otherwise. -/
def pyIntOptRepr : Option Int → String
  | none => "None"
  | some k => toString k

/-- Embedding of `contains(substrings, count, error_message, allow_empty)`:
a single string is wrapped into a one-element list; the three default
messages are built from the quoted substrings, where the source indexes
`substrings[-1]` and therefore raises `IndexError` on an empty list when no
custom message is given; the count method sums `a.count(substring)` over the
substrings. -/
def contains (substrings : PyStrOrList) (count : Option Int)
    (error_message : Option String) (allow_empty : Bool) :
    Except PyErr CountValidator :=
  let subs : List String :=
    match substrings with
    | PyStrOrList.str s => [s]
    | PyStrOrList.list l => l
  let msgs : Except PyErr (String × String × String) :=
    match error_message with
    | some m => Except.ok (m, m, m)
    | none =>
      match subs.getLast? with
      | none => Except.error (PyErr.indexError "list index out of range")
      | some lastSub =>
        let substrings_string :=
          if subs.length = 1 then pyQuote lastSub
          else String.intercalate ", " (subs.dropLast.map pyQuote)
            ++ " or " ++ pyQuote lastSub
        Except.ok ("Input should contain " ++ substrings_string,
          "Input should not contain " ++ substrings_string,
          "Input should contain " ++ substrings_string ++ " exactly "
            ++ pyIntOptRepr count ++ " times")
  msgs.map (fun m =>
    { count_method := fun a => ((subs.map (fun sub => (pyStrCount a sub : Int))).sum),
      count := count,
      expected_existence := m.1,
      expected_non_existence := m.2.1,
      expected_count := m.2.2,
      allow_empty := allow_empty })

/-- Embedding of `not_contains(substring, error_message, allow_empty)`:
delegates to `contains` with `count=0`. -/
def not_contains (substring : String) (error_message : Option String)
    (allow_empty : Bool) : Except PyErr CountValidator :=
  contains (PyStrOrList.str substring) (some 0) error_message allow_empty

/-- Concrete count validator (counts the characters of the input, expects
exactly two) used to exercise the precedence rules. -/
def cvLen : CountValidator :=
  { count_method := fun s => (s.length : Int),
    count := some 2,
    expected_existence := "need it",
    expected_non_existence := "forbid it",
    expected_count := "exactly two",
    allow_empty := true }

/-- Concrete validator that accepts every input. -/
def vPassA : PyValidator := fun _ => Except.ok none

/-- Concrete validator that fails on every input, standing in for a spy whose
successors must never run. -/
def vSpyFail : PyValidator := fun _ => Except.ok (some "spy says no")

/-- Concrete count validator with no expected count and `allow_empty` set. -/
def cvEmptyOk : CountValidator :=
  { count_method := fun s => (s.length : Int),
    count := none,
    expected_existence := "need it",
    expected_non_existence := "forbid it",
    expected_count := "wrong count",
    allow_empty := true }

/-- Concrete count validator configured with expected count `0`. -/
def cvZero : CountValidator :=
  { count_method := fun s => (s.length : Int),
    count := some 0,
    expected_existence := "need it",
    expected_non_existence := "must not appear",
    expected_count := "wrong count",
    allow_empty := true }

/-- A validator that passes on the given input contributes nothing to the
loop of `combine`. -/
theorem combine_cons_ok_none (v : PyValidator) (vs : List PyValidator)
    (x : String) (h : v x = Except.ok none) :
    combine (v :: vs) x = combine vs x := by
  simp [combine, h]

/-- A leading block of validators that all pass on the given input leaves the
result of `combine` to the remaining validators. -/
theorem combine_append_all_none (vs ws : List PyValidator) (x : String)
    (h : ∀ u ∈ vs, u x = Except.ok none) :
    combine (vs ++ ws) x = combine ws x := by
  induction vs with
  | nil => rfl
  | cons v rest ih =>
    rw [List.cons_append, combine_cons_ok_none v (rest ++ ws) x (h v (by simp))]
    exact ih (fun u hu => h u (by simp [hu]))

/-- A validator that passes on the given input adds exactly one invocation to
the loop of `combine`. -/
theorem combineCalls_cons_ok_none (v : PyValidator) (vs : List PyValidator)
    (x : String) (h : v x = Except.ok none) :
    combineCalls (v :: vs) x = 1 + combineCalls vs x := by
  simp [combineCalls, h]

/-- A leading block of validators that all pass contributes exactly its
length to the number of invocations made by `combine`. -/
theorem combineCalls_append_all_none (vs ws : List PyValidator) (x : String)
    (h : ∀ u ∈ vs, u x = Except.ok none) :
    combineCalls (vs ++ ws) x = vs.length + combineCalls ws x := by
  induction vs with
  | nil => simp
  | cons v rest ih =>
    rw [List.cons_append, combineCalls_cons_ok_none v (rest ++ ws) x (h v (by simp)),
      ih (fun u hu => h u (by simp [hu]))]
    simp
    omega

/-- C1: for every `CountValidator` invocation that is not exempted by the
empty-input policy, the result is the existence message exactly when the
actual count is zero and the expected count is not zero (including unset);
otherwise the non-existence message exactly when the actual count is nonzero
and the expected count is zero; otherwise the exact-count message exactly
when an expected count is set and differs from the actual count; otherwise
`None` — the rules being tested in exactly this order. -/
theorem countValidator_precedence (v : CountValidator) (s : String)
    (h : s ≠ "" ∨ v.allow_empty = false) :
    v.call s =
      if v.count_method s = 0 ∧ v.count ≠ some 0 then some v.expected_existence
      else if v.count_method s ≠ 0 ∧ v.count = some 0 then some v.expected_non_existence
      else if v.count ≠ none ∧ v.count ≠ some (v.count_method s) then some v.expected_count
      else none := by
  have hguard : ¬(v.allow_empty = true ∧ s = "") := by
    rcases h with h | h
    · exact fun hc => h hc.2
    · exact fun hc => by rw [h] at hc; exact Bool.false_ne_true hc.1
  rw [CountValidator.call, if_neg hguard]
  rcases hc : v.count with _ | k
  · simp
  · by_cases h0 : v.count_method s = 0 <;> by_cases hk : k = (0 : Int) <;>
      simp [h0, hk, eq_comm]

/-- Witness for C1: on input `"a"` the validator `cvLen` counts one character
against an expected count of two, so the exact-count rule fires. -/
theorem countValidator_precedence_witness : cvLen.call "a" = some "exactly two" := by
  have h := countValidator_precedence cvLen "a" (Or.inl (by decide))
  rw [h]
  rfl

/-- C2: `combine` returns `None` exactly when every validator returns `None`
on the input; on a pair it returns the first result when that is not `None`
and otherwise the second; and whenever the validators before some failing
validator all pass, `combine` returns that first failure and the loop
invokes exactly the validators up to and including it — the validators after
the first failure are never invoked. -/
theorem combine_first_failure :
    (∀ (vs : List PyValidator) (x : String),
        combine vs x = Except.ok none ↔ ∀ u ∈ vs, u x = Except.ok none)
  ∧ (∀ (v1 v2 : PyValidator) (x : String),
        combine [v1, v2] x =
          match v1 x with
          | Except.ok none => v2 x
          | r => r)
  ∧ (∀ (l1 : List PyValidator) (v : PyValidator) (l2 : List PyValidator)
        (x : String) (e : String),
        (∀ u ∈ l1, u x = Except.ok none) → v x = Except.ok (some e) →
          combine (l1 ++ v :: l2) x = Except.ok (some e)
          ∧ combineCalls (l1 ++ v :: l2) x = l1.length + 1) := by
  refine ⟨?_, ?_, ?_⟩
  · intro vs x
    constructor
    · intro h u hu
      induction vs with
      | nil => simp at hu
      | cons v rest ih =>
        rcases List.mem_cons.mp hu with rfl | hmem
        · cases hv : u x with
          | ok o =>
            cases o with
            | none => rfl
            | some m => rw [combine, hv] at h; exact absurd h (by simp)
          | error er => rw [combine, hv] at h; exact absurd h (by simp)
        · cases hv : v x with
          | ok o =>
            cases o with
            | none => rw [combine, hv] at h; exact ih h hmem
            | some m => rw [combine, hv] at h; exact absurd h (by simp)
          | error er => rw [combine, hv] at h; exact absurd h (by simp)
    · intro h
      have := combine_append_all_none vs [] x h
      simpa [combine] using this
  · intro v1 v2 x
    cases hv : v1 x with
    | ok o =>
      cases o with
      | none =>
        simp only [combine, hv]
        cases hw : v2 x with
        | ok o2 => cases o2 <;> simp [combine, hw]
        | error er => simp [combine, hw]
      | some m => simp [combine, hv]
    | error er => simp [combine, hv]
  · intro l1 v l2 x e h1 hv
    constructor
    · rw [combine_append_all_none l1 (v :: l2) x h1, combine, hv]
    · rw [combineCalls_append_all_none l1 (v :: l2) x h1, combineCalls, hv]

/-- Witness for C2: with a passing validator, a failing one and a trailing
passing one, `combine` returns the failure and invokes two validators only. -/
theorem combine_first_failure_witness :
    combine [vPassA, vSpyFail, vPassA] "a" = Except.ok (some "spy says no")
    ∧ combineCalls [vPassA, vSpyFail, vPassA] "a" = 2 := by
  have h := combine_first_failure.2.2 [vPassA] vSpyFail [vPassA] "a" "spy says no"
    (by intro u hu; rw [List.mem_singleton.mp hu]; rfl) rfl
  simpa using h

/-- C3: every `BooleanValidator` and every `CountValidator` with
`allow_empty` set returns `None` on the empty string, whatever its predicate
or count function, and `combine` of validators that all return `None` on the
empty string also returns `None` on it. -/
theorem allow_empty_returns_none :
    (∀ v : BooleanValidator, v.allow_empty = true → v.call "" = Except.ok none)
  ∧ (∀ v : CountValidator, v.allow_empty = true → v.call "" = none)
  ∧ (∀ vs : List PyValidator,
      (∀ u ∈ vs, u "" = Except.ok none) → combine vs "" = Except.ok none) := by
  refine ⟨?_, ?_, ?_⟩
  · intro v h
    rw [BooleanValidator.call, if_pos ⟨h, rfl⟩]
  · intro v h
    rw [CountValidator.call, if_pos ⟨h, rfl⟩]
  · intro vs h
    have := combine_append_all_none vs [] "" h
    simpa [combine] using this

/-- Witness for C3: a `min_length` validator, a count validator, and their
combination all return `None` on the empty string. -/
theorem allow_empty_returns_none_witness :
    (min_length 3 none true).call "" = Except.ok none
    ∧ cvEmptyOk.call "" = none
    ∧ combine [fun s => (min_length 3 none true).call s] "" = Except.ok none := by
  refine ⟨allow_empty_returns_none.1 (min_length 3 none true) rfl,
    allow_empty_returns_none.2.1 cvEmptyOk rfl,
    allow_empty_returns_none.2.2 [fun s => (min_length 3 none true).call s] ?_⟩
  intro u hu
  rw [List.mem_singleton.mp hu]
  rfl

/-- C4 (failing input): the `number` validator accepts the claimed examples
and rejects `"abc"` and `"1.2.3"`, but it also accepts `"12a"` and `"1a2"`,
because the third alternative of `NUMBER_REGEX` is written `\d+.\d*` with an
unescaped dot that matches any character — contradicting the claim that any
input containing a character other than a digit, a dot or a leading sign is
rejected. -/
theorem number_accepts_letter_input :
    (number none true).call "12" = Except.ok none
    ∧ (number none true).call "12.3" = Except.ok none
    ∧ (number none true).call "-12.3" = Except.ok none
    ∧ (number none true).call ".5" = Except.ok none
    ∧ (number none true).call "5." = Except.ok none
    ∧ (number none true).call "abc" = Except.ok (some "Input should be a number")
    ∧ (number none true).call "1.2.3" = Except.ok (some "Input should be a number")
    ∧ (number none true).call "12a" = Except.ok none
    ∧ (number none true).call "1a2" = Except.ok none := by
  refine ⟨rfl, rfl, rfl, rfl, rfl, rfl, rfl, rfl, rfl⟩

/-- C5 (failing input): a `startswith` or `endswith` validator built from a
list of substrings raises `TypeError` on every non-empty invocation, because
the source passes the list straight to `str.startswith` / `str.endswith`,
which only accept a string or a tuple of strings; built from a single string
the validators behave as the claim states. -/
theorem startswith_endswith_list_type_error :
    (startswith (PyStrOrList.list ["ab", "cd"]) none true).call "abc"
      = Except.error (PyErr.typeError
          "startswith first arg must be str or a tuple of str, not list")
    ∧ (endswith (PyStrOrList.list ["bc"]) none true).call "abc"
      = Except.error (PyErr.typeError
          "endswith first arg must be str or a tuple of str, not list")
    ∧ (startswith (PyStrOrList.str "ab") none true).call "abc" = Except.ok none
    ∧ (startswith (PyStrOrList.str "cd") none true).call "abc"
      = Except.ok (some "Input should start with \"cd\"")
    ∧ (endswith (PyStrOrList.str "bc") none true).call "abc" = Except.ok none := by
  refine ⟨rfl, rfl, rfl, rfl, rfl⟩

/-- C6 (counterexample): a validator built by `match_regex` from a malformed
pattern (whose compilation raises `re.error`) is constructed without any
error being raised — an exempted empty invocation even succeeds — and the
compilation error only surfaces when the validator is invoked on a
non-exempt input; so configuration errors are not raised at construction
time. -/
theorem match_regex_error_not_at_construction :
    (match_regex
        (fun _ => Except.error (PyErr.reError "unterminated character set at position 0"))
        "[" none true).call "x"
      = Except.error (PyErr.reError "unterminated character set at position 0")
    ∧ (match_regex
        (fun _ => Except.error (PyErr.reError "unterminated character set at position 0"))
        "[" none true).call "" = Except.ok none := by
  exact ⟨rfl, rfl⟩

/-- C6 (amended): `match_regex` performs no pattern compilation at
construction — construction always succeeds — and whenever compilation of
the pattern fails, the resulting error is raised at each invocation whose
input is not exempted by the empty-input policy. -/
theorem match_regex_defers_error (compile : String → Except PyErr (String → Bool))
    (p : String) (e : PyErr) (m : Option String) (ae : Bool) (s : String)
    (hc : compile p = Except.error e) (hs : ae = false ∨ s ≠ "") :
    (match_regex compile p m ae).call s = Except.error e := by
  have hguard : ¬(ae = true ∧ s = "") := by
    rcases hs with h | h
    · exact fun hcon => by rw [h] at hcon; exact Bool.false_ne_true hcon.1
    · exact fun hcon => h hcon.2
  rw [match_regex, BooleanValidator.call]
  simp [hguard, hc, Except.map]

/-- Witness for the amended C6: the validator built from the malformed
pattern raises the compilation error on invocation with `allow_empty`
unset. -/
theorem match_regex_defers_error_witness :
    (match_regex (fun _ => Except.error (PyErr.reError "bad pattern")) "["
        none false).call "" = Except.error (PyErr.reError "bad pattern") :=
  match_regex_defers_error (fun _ => Except.error (PyErr.reError "bad pattern"))
    "[" (PyErr.reError "bad pattern") none false "" rfl (Or.inl rfl)

/-- C7 (counterexample): the `integer` validator returns `None` on the
non-empty input consisting of three digits and a trailing newline, although
that input is not made of digits only — the `$` of `^[0-9]+$` also matches
just before a trailing newline. -/
theorem integer_accepts_trailing_newline :
    (integer none true).call "123\n" = Except.ok none
    ∧ ¬(∀ c ∈ "123\n".data, '0' ≤ c ∧ c ≤ '9') := by
  exact ⟨rfl, by decide⟩

/-- C7 (amended): on every invocation not exempted by the empty-input
policy, the `integer` validator returns `None` exactly when the input, or
the input less a single trailing newline, is a non-empty string of ASCII
digits `0`-`9` and nothing else. -/
theorem integer_digits_or_trailing_newline (s : String) (ae : Bool)
    (h : ae = false ∨ s ≠ "") :
    (integer none ae).call s = Except.ok none ↔
      ((s.data ≠ [] ∧ ∀ c ∈ s.data, '0' ≤ c ∧ c ≤ '9')
        ∨ (s.data.getLast? = some '\n' ∧ s.data.dropLast ≠ []
            ∧ ∀ c ∈ s.data.dropLast, '0' ≤ c ∧ c ≤ '9')) := by
  have hguard : ¬(ae = true ∧ s = "") := by
    rcases h with h | h
    · exact fun hc => by rw [h] at hc; exact Bool.false_ne_true hc.1
    · exact fun hc => h hc.2
  have hsearch : ((integer none ae).call s = Except.ok none) ↔ integerSearch s = true := by
    rw [integer, match_regex, BooleanValidator.call]
    simp only [hguard, if_false]
    cases hI : integerSearch s <;> simp [compiledConst, Except.map, hI]
  rw [hsearch, integerSearch, dollarAdjusted, Bool.or_eq_true, Bool.and_eq_true, beq_iff_eq]
  apply or_congr
  · simp [digitsOnly, isAsciiDigit, List.all_eq_true, List.isEmpty_iff]
  · apply and_congr Iff.rfl
    simp [digitsOnly, isAsciiDigit, List.all_eq_true, List.isEmpty_iff]

/-- Witness for the amended C7: `integer` accepts `"12345"`. -/
theorem integer_digits_or_trailing_newline_witness :
    (integer none true).call "12345" = Except.ok none :=
  (integer_digits_or_trailing_newline "12345" true (Or.inr (by decide))).mpr
    (Or.inl (by decide))

/-- C8: the `email` validator accepts `"a.b@example.com"` and rejects
`"@example.com"`, `"a@.com"` and `"plainaddress"` with its error message. -/
theorem email_examples :
    (email none true).call "a.b@example.com" = Except.ok none
    ∧ (email none true).call "@example.com"
        = Except.ok (some "Input should be a valid email address")
    ∧ (email none true).call "a@.com"
        = Except.ok (some "Input should be a valid email address")
    ∧ (email none true).call "plainaddress"
        = Except.ok (some "Input should be a valid email address") := by
  refine ⟨rfl, rfl, rfl, rfl⟩

/-- C9: with `allow_empty` unset, `min_length n` returns `None` exactly when
the input has at least `n` characters, for every `n` and every input,
including the empty one. -/
theorem min_length_iff (n : Nat) (s : String) :
    (min_length n none false).call s = Except.ok none ↔ n ≤ s.length := by
  simp [min_length, BooleanValidator.call, Except.map]

/-- C10: `not_contains` always constructs (with any custom-message choice) a
count validator whose expected count is `0`, and every count validator with
expected count `0` returns, on every input, either `None` (when exempt or
when the count is zero) or the non-existence message — the existence and
exact-count messages are unreachable. -/
theorem count_zero_only_nonexistence :
    (∀ (s : String) (m : Option String) (ae : Bool),
        ∃ cv, not_contains s m ae = Except.ok cv ∧ cv.count = some 0)
  ∧ (∀ (v : CountValidator) (x : String), v.count = some 0 →
        v.call x =
          if v.allow_empty = true ∧ x = "" then none
          else if v.count_method x = 0 then none
          else some v.expected_non_existence) := by
  constructor
  · intro s m ae
    cases m <;> exact ⟨_, rfl, rfl⟩
  · intro v x hv
    rw [CountValidator.call]
    by_cases hg : v.allow_empty = true ∧ x = ""
    · simp [hg]
    · by_cases h0 : v.count_method x = 0 <;> simp [hg, h0, hv]

/-- Witness for C10: the zero-count validator `cvZero` reports the
non-existence message on `"ab"`. -/
theorem count_zero_only_nonexistence_witness :
    cvZero.call "ab" = some "must not appear" := by
  have h := count_zero_only_nonexistence.2 cvZero "ab" rfl
  rw [h]
  rfl
